import Mathlib

/-!
Verification development for the menu-server application.

The definitions below are a shallow embedding of the Python/Flask source:
the relational store becomes an explicit record of lists, each Flask view
function becomes a pure function from (store, request data) to
(response, store), the JWT layer becomes explicit token records plus a
revocation list, and the logging middleware becomes a function on a
per-request state.  Machine behaviour that the claims do not touch
(TTL-based cache expiry, SQL storage of mistyped payload values) is noted
at the definition that abstracts it.
-/

namespace MenuServer

/-- Flat JSON values as they occur in the request payloads of this API:
strings, integers, booleans, null, and lists of integers (the
`emotion_ids` / `texture_ids` / `shape_ids` fields). -/
inductive JVal where
  | jnull
  | jstr (s : String)
  | jint (n : Int)
  | jbool (b : Bool)
  | jints (xs : List Int)
deriving DecidableEq, Repr

/-- Python truthiness of a JSON value (`if v:`). -/
def JVal.truthy : JVal → Bool
  | .jnull => false
  | .jstr s => !(s == "")
  | .jint n => !(n == 0)
  | .jbool b => b
  | .jints xs => !xs.isEmpty

/-- String coercion used when a JSON value is assigned to a string column.
Null becomes the empty string in this model (in the source a null would be
rejected by the non-null column constraint; no claim exercises that path). -/
def JVal.toStr : JVal → String
  | .jnull => ""
  | .jstr s => s
  | .jint n => toString n
  | .jbool b => if b then "True" else "False"
  | .jints _ => "[list]"

/-- A parsed JSON object body: association list of keys to values. -/
def JObj := List (String × JVal)
deriving instance DecidableEq, Repr for JObj

/-- Python `data.get(k)`: the value at key `k`, if present. -/
def jget (o : JObj) (k : String) : Option JVal :=
  (o.find? (fun p => p.1 == k)).map (·.2)

/-- Python `k in data`. -/
def jhas (o : JObj) (k : String) : Bool :=
  (jget o k).isSome

/-- Truthiness of `data.get(k)` (`if data.get(k):`). -/
def pyTruthyOpt : Option JVal → Bool
  | none => false
  | some v => v.truthy

/-- Truthiness of the whole parsed body (`if not data:` negated):
`none` models `request.get_json()` returning `None`; an empty object is
falsy exactly like an absent body. -/
def bodyTruthy : Option JObj → Bool
  | none => false
  | some o => !o.isEmpty

/-- Python `data.get(k, "")` coerced to a string column. -/
def fieldStrD (o : JObj) (k : String) : String :=
  ((jget o k).map JVal.toStr).getD ""

/-- Python `data.get(k)` read into a nullable integer column. -/
def fieldInt (o : JObj) (k : String) : Option Int :=
  match jget o k with
  | some (.jint n) => some n
  | _ => none

/-- Python `data.get(k)` read into a nullable string column. -/
def fieldStrOpt (o : JObj) (k : String) : Option String :=
  match jget o k with
  | some (.jstr s) => some s
  | _ => none

/-- Row of the `emotion` / `texture` / `shape` vocabulary tables:
an id and a unique description. -/
structure AttrRec where
  id : Nat
  description : String
deriving DecidableEq, Repr

/-- Row of the `menu` table: `owner` embeds the nullable `owner_id`
foreign key. -/
structure MenuRec where
  id : Nat
  title : String
  description : String
  owner : Option Nat
deriving DecidableEq, Repr

/-- Row of the `dish` table.  `sectionName` embeds the `section` column
(`section` is a Lean keyword). -/
structure DishRec where
  id : Nat
  menuId : Nat
  name : String
  description : String
  sectionName : String
  bitter : Option Int
  salty : Option Int
  sour : Option Int
  sweet : Option Int
  umami : Option Int
  fat : Option Int
  piquant : Option Int
  temperature : Option Int
  color1 : Option String
  color2 : Option String
  color3 : Option String
deriving DecidableEq, Repr

/-- Row of the `user` table. -/
structure UserRec where
  id : Nat
  username : String
  email : Option String
  passwordHash : String
  isAdmin : Bool
  isManager : Bool
deriving DecidableEq, Repr

/-- Derived role string (`User.role` property). -/
def UserRec.role (u : UserRec) : String :=
  if u.isAdmin then "admin" else if u.isManager then "manager" else "user"

/-- Row of the `request_log` table.  Timestamps are seconds since epoch. -/
structure LogRec where
  timestamp : Nat
  method : String
  endpoint : String
  statusCode : Nat
  userId : Option Nat
deriving DecidableEq, Repr

/-- The relational store: one list per table, join tables as lists of
(dish id, attribute id) pairs, plus primary-key counters. -/
structure Store where
  users : List UserRec
  menus : List MenuRec
  dishes : List DishRec
  emotions : List AttrRec
  textures : List AttrRec
  shapes : List AttrRec
  emotionDish : List (Nat × Nat)
  textureDish : List (Nat × Nat)
  shapeDish : List (Nat × Nat)
  logs : List LogRec
  nextMenuId : Nat
  nextDishId : Nat
  nextUserId : Nat
deriving DecidableEq, Repr

/-- Primary-key lookup on the `menu` table (`db.session.get(Menu, id)`). -/
def findMenu (st : Store) (menuId : Nat) : Option MenuRec :=
  st.menus.find? (fun m => m.id == menuId)

/-- Primary-key lookup on the `dish` table. -/
def findDish (st : Store) (dishId : Nat) : Option DishRec :=
  st.dishes.find? (fun d => d.id == dishId)

/-- Primary-key lookup on the `user` table. -/
def findUserById (st : Store) (userId : Nat) : Option UserRec :=
  st.users.find? (fun u => u.id == userId)

/-- `User.get_by_username`. -/
def getByUsername (st : Store) (username : String) : Option UserRec :=
  st.users.find? (fun u => u.username == username)

/-- The dishes of a menu (`menu.dishes` relationship). -/
def menuDishes (st : Store) (menuId : Nat) : List DishRec :=
  st.dishes.filter (fun d => d.menuId == menuId)

/-- Serialized dish as produced by `_serialize_dish`: attribute sets are
read back through the join tables, colors keep only truthy entries. -/
structure DishJson where
  id : Nat
  name : String
  description : String
  sectionName : String
  emotions : List AttrRec
  textures : List AttrRec
  shapes : List AttrRec
  bitter : Option Int
  salty : Option Int
  sour : Option Int
  sweet : Option Int
  umami : Option Int
  fat : Option Int
  piquant : Option Int
  temperature : Option Int
  colors : List String
deriving DecidableEq, Repr

/-- One entry of the `GET /api/menus` listing. -/
structure MenuSummary where
  id : Nat
  title : String
  description : String
  dishCount : Nat
deriving DecidableEq, Repr

/-- Embedding of `_serialize_dish`. -/
def serializeDish (st : Store) (d : DishRec) : DishJson :=
  { id := d.id
    name := d.name
    description := d.description
    sectionName := d.sectionName
    emotions := st.emotions.filter (fun a => st.emotionDish.contains (d.id, a.id))
    textures := st.textures.filter (fun a => st.textureDish.contains (d.id, a.id))
    shapes := st.shapes.filter (fun a => st.shapeDish.contains (d.id, a.id))
    bitter := d.bitter
    salty := d.salty
    sour := d.sour
    sweet := d.sweet
    umami := d.umami
    fat := d.fat
    piquant := d.piquant
    temperature := d.temperature
    colors := [d.color1, d.color2, d.color3].filterMap
      (fun c => match c with
        | some s => if s == "" then none else some s
        | none => none) }

/-- JWT access token: unique identifier `jti`, subject (the user id,
issued as `str(user.id)` and parsed back with `int`), issue time. -/
structure TokenRec where
  jti : Nat
  sub : Nat
  iat : Nat
deriving DecidableEq, Repr

/-- `JWT_ACCESS_TOKEN_EXPIRES = timedelta(hours=1)` in seconds. -/
def tokenExpSeconds : Nat := 3600

/-- Whether the token's fixed validity window still covers `now`. -/
def tokenFresh (t : TokenRec) (now : Nat) : Bool :=
  now < t.iat + tokenExpSeconds

/-- Embedding of `check_if_token_revoked`: membership of the token's
`jti` in the process-wide revocation set. -/
def checkIfTokenRevoked (revoked : List Nat) (t : TokenRec) : Bool :=
  revoked.contains t.jti

/-- Response bodies actually produced by the embedded handlers. -/
inductive RespBody where
  | noContent
  | errMsg (error : String)
  | msg (message : String)
  | created (message : String) (id : Nat)
  | registered (message : String) (userId : Nat)
  | loginOk (accessToken : TokenRec) (userId : Nat)
  | meInfo (id : Nat) (username : String) (role : String)
  | menuList (items : List MenuSummary)
  | menuDetail (id : Nat) (title : String) (description : String) (dishes : List DishJson)
  | dishList (items : List DishJson)
deriving DecidableEq, Repr

/-- An HTTP response: status code and JSON body. -/
structure Resp where
  status : Nat
  body : RespBody
deriving DecidableEq, Repr

/-- The `@jwt_required()` guard.  A presented token is accepted exactly
when it is unexpired and its `jti` is not in the revocation set; the
expiry check precedes the blocklist check, as in flask-jwt-extended. -/
def authGuard (tok : Option TokenRec) (now : Nat) (revoked : List Nat) :
    Except Resp Nat :=
  match tok with
  | none => .error ⟨401, .errMsg "Missing Authorization Header"⟩
  | some t =>
    if !(tokenFresh t now) then .error ⟨401, .errMsg "Token has expired"⟩
    else if checkIfTokenRevoked revoked t then
      .error ⟨401, .errMsg "Token has been revoked"⟩
    else .ok t.sub

/-- Run a protected handler behind the `@jwt_required()` guard: a rejected
token yields 401 and leaves the store untouched. -/
def withAuth (tok : Option TokenRec) (now : Nat) (revoked : List Nat)
    (st : Store) (handler : Nat → Resp × Store) : Resp × Store :=
  match authGuard tok now revoked with
  | .error r => (r, st)
  | .ok uid => handler uid

/-- Embedding of `get_menus` (GET /api/menus): only the menus whose
`owner_id` equals the authenticated user's id are listed. -/
def getMenus (st : Store) (userId : Nat) : Resp × Store :=
  let items := (st.menus.filter (fun m => m.owner == some userId)).map
    (fun m => MenuSummary.mk m.id m.title m.description (menuDishes st m.id).length)
  (⟨200, .menuList items⟩, st)

/-- Embedding of `get_menu` (GET /api/menus/{id}): absent menu is 404,
foreign owner is 403, otherwise the menu with its serialized dishes. -/
def getMenu (st : Store) (userId : Nat) (menuId : Nat) : Resp × Store :=
  match findMenu st menuId with
  | none => (⟨404, .errMsg "Menu not found"⟩, st)
  | some m =>
    if m.owner ≠ some userId then (⟨403, .errMsg "Unauthorized"⟩, st)
    else
      (⟨200, .menuDetail m.id m.title m.description
        ((menuDishes st m.id).map (serializeDish st))⟩, st)

/-- Embedding of `create_menu` (POST /api/menus): falsy body is rejected,
otherwise a menu is inserted with `data.get("title", "")` and
`data.get("description", "")` and the caller as owner. -/
def createMenu (st : Store) (userId : Nat) (data : Option JObj) : Resp × Store :=
  if !(bodyTruthy data) then (⟨400, .errMsg "No data provided"⟩, st)
  else
    let d := data.getD []
    let m : MenuRec :=
      { id := st.nextMenuId
        title := fieldStrD d "title"
        description := fieldStrD d "description"
        owner := some userId }
    (⟨201, .created "Menu created" m.id⟩,
      { st with menus := st.menus ++ [m], nextMenuId := st.nextMenuId + 1 })

/-- Embedding of `update_menu` (PUT /api/menus/{id}): after the 404/403
checks, each of `title` and `description` is assigned only when the
payload value is truthy; an absent body makes `data.get` raise, which
surfaces as a 500 response. -/
def updateMenu (st : Store) (userId : Nat) (menuId : Nat) (data : Option JObj) :
    Resp × Store :=
  match findMenu st menuId with
  | none => (⟨404, .errMsg "Menu not found"⟩, st)
  | some m =>
    if m.owner ≠ some userId then (⟨403, .errMsg "Unauthorized"⟩, st)
    else
      match data with
      | none => (⟨500, .errMsg "Internal Server Error"⟩, st)
      | some d =>
        let title' := match jget d "title" with
          | some v => if v.truthy then v.toStr else m.title
          | none => m.title
        let desc' := match jget d "description" with
          | some v => if v.truthy then v.toStr else m.description
          | none => m.description
        (⟨200, .msg "Menu updated"⟩,
          { st with menus := st.menus.map (fun x =>
              if x.id == menuId then { x with title := title', description := desc' }
              else x) })

/-- Cascade of `db.session.delete(menu)` under
`dishes = relationship(cascade="all, delete-orphan")`: the menu row, every
dish row with that `menu_id`, and every join-table row of those dishes are
removed. -/
def cascadeDeleteMenu (st : Store) (menuId : Nat) : Store :=
  let doomed := (st.dishes.filter (fun d => d.menuId == menuId)).map (·.id)
  { st with
    menus := st.menus.filter (fun m => !(m.id == menuId))
    dishes := st.dishes.filter (fun d => !(d.menuId == menuId))
    emotionDish := st.emotionDish.filter (fun p => !(doomed.contains p.1))
    textureDish := st.textureDish.filter (fun p => !(doomed.contains p.1))
    shapeDish := st.shapeDish.filter (fun p => !(doomed.contains p.1)) }

/-- Embedding of `delete_menu` (DELETE /api/menus/{id}). -/
def deleteMenu (st : Store) (userId : Nat) (menuId : Nat) : Resp × Store :=
  match findMenu st menuId with
  | none => (⟨404, .errMsg "Menu not found"⟩, st)
  | some m =>
    if m.owner ≠ some userId then (⟨403, .errMsg "Unauthorized"⟩, st)
    else (⟨200, .msg "Menu deleted"⟩, cascadeDeleteMenu st menuId)

/-- Embedding of `get_dishes` (GET /api/menus/{id}/dishes). -/
def getDishes (st : Store) (userId : Nat) (menuId : Nat) : Resp × Store :=
  match findMenu st menuId with
  | none => (⟨404, .errMsg "Menu not found"⟩, st)
  | some m =>
    if m.owner ≠ some userId then (⟨403, .errMsg "Unauthorized"⟩, st)
    else (⟨200, .dishList ((menuDishes st menuId).map (serializeDish st))⟩, st)

/-- Vocabulary rows whose id occurs in the payload's id list
(`Emotion.query.filter(Emotion.id.in_(ids)).all()` and its texture/shape
counterparts); a payload value that is not an integer list selects
nothing. -/
def vocabIdsFor (vocab : List AttrRec) (v : Option JVal) : List Nat :=
  match v with
  | some (.jints xs) => (vocab.filter (fun a => xs.contains (a.id : Int))).map (·.id)
  | _ => []

/-- Embedding of `_set_dish_relationships`: for each of the three id-list
keys present in the payload, the dish's join rows are replaced by rows to
the selected vocabulary entries. -/
def setDishRelationships (st : Store) (dishId : Nat) (d : JObj) : Store :=
  let st1 :=
    if jhas d "emotion_ids" then
      { st with emotionDish :=
          st.emotionDish.filter (fun p => !(p.1 == dishId)) ++
          (vocabIdsFor st.emotions (jget d "emotion_ids")).map (fun a => (dishId, a)) }
    else st
  let st2 :=
    if jhas d "texture_ids" then
      { st1 with textureDish :=
          st1.textureDish.filter (fun p => !(p.1 == dishId)) ++
          (vocabIdsFor st1.textures (jget d "texture_ids")).map (fun a => (dishId, a)) }
    else st1
  if jhas d "shape_ids" then
    { st2 with shapeDish :=
        st2.shapeDish.filter (fun p => !(p.1 == dishId)) ++
        (vocabIdsFor st2.shapes (jget d "shape_ids")).map (fun a => (dishId, a)) }
  else st2

/-- Embedding of `create_dish` (POST /api/menus/{id}/dishes): the 404/403
checks come first, then the falsy-body check, then the insert. -/
def createDish (st : Store) (userId : Nat) (menuId : Nat) (data : Option JObj) :
    Resp × Store :=
  match findMenu st menuId with
  | none => (⟨404, .errMsg "Menu not found"⟩, st)
  | some m =>
    if m.owner ≠ some userId then (⟨403, .errMsg "Unauthorized"⟩, st)
    else if !(bodyTruthy data) then (⟨400, .errMsg "No data provided"⟩, st)
    else
      let d := data.getD []
      let dish : DishRec :=
        { id := st.nextDishId
          menuId := menuId
          name := fieldStrD d "name"
          description := fieldStrD d "description"
          sectionName := fieldStrD d "section"
          bitter := fieldInt d "bitter"
          salty := fieldInt d "salty"
          sour := fieldInt d "sour"
          sweet := fieldInt d "sweet"
          umami := fieldInt d "umami"
          fat := fieldInt d "fat"
          piquant := fieldInt d "piquant"
          temperature := fieldInt d "temperature"
          color1 := fieldStrOpt d "color1"
          color2 := fieldStrOpt d "color2"
          color3 := fieldStrOpt d "color3" }
      let st' := { st with dishes := st.dishes ++ [dish],
                           nextDishId := st.nextDishId + 1 }
      (⟨201, .created "Dish created" dish.id⟩, setDishRelationships st' dish.id d)

/-- Scalar-field update loop of `update_dish`: a key present in the
payload overwrites the column, whatever the value (no truthiness check,
unlike `update_menu`). -/
def updateDishScalars (dish : DishRec) (d : JObj) : DishRec :=
  { dish with
    name := if jhas d "name" then fieldStrD d "name" else dish.name
    description := if jhas d "description" then fieldStrD d "description"
                   else dish.description
    sectionName := if jhas d "section" then fieldStrD d "section"
                   else dish.sectionName
    bitter := if jhas d "bitter" then fieldInt d "bitter" else dish.bitter
    salty := if jhas d "salty" then fieldInt d "salty" else dish.salty
    sour := if jhas d "sour" then fieldInt d "sour" else dish.sour
    sweet := if jhas d "sweet" then fieldInt d "sweet" else dish.sweet
    umami := if jhas d "umami" then fieldInt d "umami" else dish.umami
    fat := if jhas d "fat" then fieldInt d "fat" else dish.fat
    piquant := if jhas d "piquant" then fieldInt d "piquant" else dish.piquant
    temperature := if jhas d "temperature" then fieldInt d "temperature"
                   else dish.temperature
    color1 := if jhas d "color1" then fieldStrOpt d "color1" else dish.color1
    color2 := if jhas d "color2" then fieldStrOpt d "color2" else dish.color2
    color3 := if jhas d "color3" then fieldStrOpt d "color3" else dish.color3 }

/-- Embedding of `update_dish` (PUT /api/dishes/{id}): ownership is
checked through the dish's owning menu; a dangling `menu_id` or an absent
body crashes the handler (500).  Note the 404-before-403 order. -/
def updateDish (st : Store) (userId : Nat) (dishId : Nat) (data : Option JObj) :
    Resp × Store :=
  match findDish st dishId with
  | none => (⟨404, .errMsg "Dish not found"⟩, st)
  | some dish =>
    match findMenu st dish.menuId with
    | none => (⟨500, .errMsg "Internal Server Error"⟩, st)
    | some m =>
      if m.owner ≠ some userId then (⟨403, .errMsg "Unauthorized"⟩, st)
      else
        match data with
        | none => (⟨500, .errMsg "Internal Server Error"⟩, st)
        | some d =>
          let st' := { st with dishes := st.dishes.map (fun x =>
              if x.id == dishId then updateDishScalars x d else x) }
          (⟨200, .msg "Dish updated"⟩, setDishRelationships st' dishId d)

/-- Embedding of `delete_dish` (DELETE /api/dishes/{id}): deleting the
dish also removes its join-table rows (secondary-table handling). -/
def deleteDish (st : Store) (userId : Nat) (dishId : Nat) : Resp × Store :=
  match findDish st dishId with
  | none => (⟨404, .errMsg "Dish not found"⟩, st)
  | some dish =>
    match findMenu st dish.menuId with
    | none => (⟨500, .errMsg "Internal Server Error"⟩, st)
    | some m =>
      if m.owner ≠ some userId then (⟨403, .errMsg "Unauthorized"⟩, st)
      else
        (⟨200, .msg "Dish deleted"⟩,
          { st with
            dishes := st.dishes.filter (fun x => !(x.id == dishId))
            emotionDish := st.emotionDish.filter (fun p => !(p.1 == dishId))
            textureDish := st.textureDish.filter (fun p => !(p.1 == dishId))
            shapeDish := st.shapeDish.filter (fun p => !(p.1 == dishId)) })

/-- Embedding of `register` (POST /auth/register), parameterized by the
password hashing function (werkzeug's `generate_password_hash`). -/
def registerUser (pwHash : String → String) (st : Store) (data : Option JObj) :
    Resp × Store :=
  if !(bodyTruthy data) then (⟨400, .errMsg "No data provided"⟩, st)
  else
    let d := data.getD []
    if !(pyTruthyOpt (jget d "username")) || !(pyTruthyOpt (jget d "password")) then
      (⟨400, .errMsg "Username and password required"⟩, st)
    else
      let uname := fieldStrD d "username"
      match getByUsername st uname with
      | some _ => (⟨409, .errMsg "Username already exists"⟩, st)
      | none =>
        let u : UserRec :=
          { id := st.nextUserId
            username := uname
            email := none
            passwordHash := pwHash (fieldStrD d "password")
            isAdmin := false
            isManager := false }
        (⟨201, .registered "User created successfully" u.id⟩,
          { st with users := st.users ++ [u], nextUserId := st.nextUserId + 1 })

/-- Embedding of `login` (POST /auth/login), parameterized by the
password verifier (werkzeug's `check_password_hash`, taking the stored
hash and the candidate password).  `jti` and `now` feed the issued token;
the store is never mutated, so only the response is returned. -/
def login (pwCheck : String → String → Bool) (st : Store) (data : Option JObj)
    (jti : Nat) (now : Nat) : Resp :=
  if !(bodyTruthy data) then ⟨400, .errMsg "No data provided"⟩
  else
    let d := data.getD []
    if !(pyTruthyOpt (jget d "username")) || !(pyTruthyOpt (jget d "password")) then
      ⟨400, .errMsg "Username and password required"⟩
    else
      match getByUsername st (fieldStrD d "username") with
      | none => ⟨401, .errMsg "Invalid credentials"⟩
      | some u =>
        if !(pwCheck u.passwordHash (fieldStrD d "password")) then
          ⟨401, .errMsg "Invalid credentials"⟩
        else ⟨200, .loginOk ⟨jti, u.id, now⟩ u.id⟩

/-- Embedding of `logout` (POST /auth/logout): behind `@jwt_required()`,
the presented token's `jti` is added to the revocation set. -/
def logout (tok : Option TokenRec) (now : Nat) (revoked : List Nat) :
    Resp × List Nat :=
  match tok with
  | none => (⟨401, .errMsg "Missing Authorization Header"⟩, revoked)
  | some t =>
    if !(tokenFresh t now) then (⟨401, .errMsg "Token has expired"⟩, revoked)
    else if checkIfTokenRevoked revoked t then
      (⟨401, .errMsg "Token has been revoked"⟩, revoked)
    else (⟨200, .msg "Successfully logged out"⟩, revoked.insert t.jti)

/-- Embedding of `get_current_user` (GET /auth/me). -/
def getMe (st : Store) (userId : Nat) : Resp :=
  match findUserById st userId with
  | none => ⟨404, .errMsg "User not found"⟩
  | some u => ⟨200, .meInfo u.id u.username u.role⟩

/-- Method and path of an inbound request, as seen by the middleware's
`before` phase. -/
structure ReqInfo where
  method : String
  path : String
deriving DecidableEq, Repr

/-- Embedding of `request.path.startswith("/api")`: the first four
characters of the path are `/api`. -/
def startsWithApi (p : String) : Bool :=
  p.toList.take 4 == "/api".toList

/-- Embedding of `before_request`: an API-prefixed path marks the request
for logging and captures method and path into request-scoped state;
`none` models `g.log_request = False`. -/
def beforeRequest (r : ReqInfo) : Option (String × String) :=
  if startsWithApi r.path then some (r.method, r.path) else none

/-- Dashboard statistics (total count per entity type). -/
structure StatsRec where
  users : Nat
  menus : Nat
  dishes : Nat
  emotions : Nat
  textures : Nat
  shapes : Nat
  requests : Nat
deriving DecidableEq, Repr

/-- Values stored in the dashboard cache. -/
inductive CacheVal where
  | stats (s : StatsRec)
  | chart (labels : List Nat) (values : List Nat)
  | recent (entries : List LogRec)
deriving DecidableEq, Repr

/-- The process-local cache, keyed by fixed strings.  TTL expiry is not
modelled (no claim depends on it); `cacheSet` therefore drops the timeout
argument of `cache.set`. -/
abbrev Cache := List (String × CacheVal)

/-- `cache.get(k)`. -/
def cacheGet (c : Cache) (k : String) : Option CacheVal :=
  (c.find? (fun p => p.1 == k)).map (·.2)

/-- `cache.delete(k)`. -/
def cacheDelete (c : Cache) (k : String) : Cache :=
  c.filter (fun p => !(p.1 == k))

/-- `cache.set(k, v, timeout)` with the timeout abstracted away. -/
def cacheSet (c : Cache) (k : String) (v : CacheVal) : Cache :=
  cacheDelete c k ++ [(k, v)]

/-- Identity resolution of the `after` phase:
`verify_jwt_in_request(optional=True)` followed by `get_jwt_identity()`,
with every failure (absent, expired, revoked token) swallowed into an
anonymous `none`. -/
def optionalIdentity (tok : Option TokenRec) (now : Nat) (revoked : List Nat) :
    Option Nat :=
  match tok with
  | none => none
  | some t =>
    if tokenFresh t now && !(checkIfTokenRevoked revoked t) then some t.sub
    else none

/-- Outcome of the `after` phase: the response handed back to the client
plus the store and cache as left by the middleware. -/
structure AfterResult where
  resp : Resp
  store : Store
  cache : Cache
deriving DecidableEq, Repr

/-- Embedding of the `log_request` after-phase: unmarked requests pass
through untouched; marked requests append one RequestLog row (timestamped
`now` by the column default) and evict the three dashboard cache keys.
`dbOk` is the environment's verdict on `db.session.commit()`: when it is
false the exception handler rolls the session back, so neither the log row
nor the cache evictions happen, and the response is returned unchanged. -/
def afterRequest (g : Option (String × String)) (tok : Option TokenRec)
    (now : Nat) (revoked : List Nat) (dbOk : Bool) (resp : Resp)
    (st : Store) (c : Cache) : AfterResult :=
  match g with
  | none => ⟨resp, st, c⟩
  | some (m, p) =>
    if dbOk then
      ⟨resp,
        { st with logs := st.logs ++
            [⟨now, m, p, resp.status, optionalIdentity tok now revoked⟩] },
        cacheDelete (cacheDelete (cacheDelete c "admin_dashboard_stats")
          "admin_chart_data") "admin_recent_logs"⟩
    else ⟨resp, st, c⟩

/-- One full trip through the middleware: the `before` phase on the raw
request, an arbitrary handler response, then the `after` phase. -/
def handleRequest (r : ReqInfo) (tok : Option TokenRec) (now : Nat)
    (revoked : List Nat) (dbOk : Bool) (resp : Resp) (st : Store) (c : Cache) :
    AfterResult :=
  afterRequest (beforeRequest r) tok now revoked dbOk resp st c

/-- Calendar day of a log row (`func.date(timestamp)`), with timestamps
in seconds and days of 86400 seconds. -/
def logDate (l : LogRec) : Nat :=
  l.timestamp / 86400

/-- Embedding of `RequestLog.get_daily_counts(days)`: group the rows by
calendar day, count each group, order by day descending, and keep the
first `days` rows — i.e. the `days` most recent distinct days that have
at least one logged request, with no calendar-window filter. -/
def getDailyCounts (logs : List LogRec) (days : Nat) : List (Nat × Nat) :=
  let dates := (List.insertionSort (· ≥ ·) (logs.map logDate).dedup).take days
  dates.map (fun d => (d, (logs.filter (fun l => logDate l == d)).length))

/-- Ordering of log rows by timestamp, most recent first. -/
def logGE (a b : LogRec) : Prop :=
  b.timestamp ≤ a.timestamp

instance : DecidableRel logGE := fun a b => Nat.decLe b.timestamp a.timestamp

instance : IsTotal LogRec logGE :=
  ⟨fun a b => (Nat.le_total b.timestamp a.timestamp).imp id id⟩

instance : IsTrans LogRec logGE :=
  ⟨fun _ _ _ h h' => Nat.le_trans h' h⟩

/-- Embedding of `RequestLog.get_recent(limit)`: the rows ordered by
timestamp descending, truncated to `limit`. -/
def getRecent (logs : List LogRec) (limit : Nat) : List LogRec :=
  (List.insertionSort logGE logs).take limit

/-- Entity counts of the dashboard (`index`, stats branch). -/
def computeStats (st : Store) : StatsRec :=
  ⟨st.users.length, st.menus.length, st.dishes.length, st.emotions.length,
    st.textures.length, st.shapes.length, st.logs.length⟩

/-- Chart recomputation of the dashboard: `get_daily_counts(30)` reversed
into chronological (oldest to newest) label and value lists. -/
def computeChart (logs : List LogRec) : List Nat × List Nat :=
  let rows := getDailyCounts logs 30
  (rows.reverse.map (·.1), rows.reverse.map (·.2))

/-- Data handed to the dashboard template. -/
structure DashView where
  stats : StatsRec
  chartLabels : List Nat
  chartValues : List Nat
  recentLogs : List LogRec
deriving DecidableEq, Repr

/-- Embedding of `MyAdminIndexView.index`: each of the three cache keys is
read; on a miss the value is recomputed from the store and cached (with
timeouts 300/300/60, abstracted away). -/
def dashboardIndex (st : Store) (c : Cache) : DashView × Cache :=
  let statsStep : StatsRec × Cache :=
    match cacheGet c "admin_dashboard_stats" with
    | some (.stats s) => (s, c)
    | _ =>
      let s := computeStats st
      (s, cacheSet c "admin_dashboard_stats" (.stats s))
  let c1 := statsStep.2
  let chartStep : (List Nat × List Nat) × Cache :=
    match cacheGet c1 "admin_chart_data" with
    | some (.chart ls vs) => ((ls, vs), c1)
    | _ =>
      let ch := computeChart st.logs
      (ch, cacheSet c1 "admin_chart_data" (.chart ch.1 ch.2))
  let c2 := chartStep.2
  let recentStep : List LogRec × Cache :=
    match cacheGet c2 "admin_recent_logs" with
    | some (.recent ls) => (ls, c2)
    | _ =>
      let ls := getRecent st.logs 10
      (ls, cacheSet c2 "admin_recent_logs" (.recent ls))
  (⟨statsStep.1, chartStep.1.1, chartStep.1.2, recentStep.1⟩, recentStep.2)

/-- Modelled from the spec, for comparison with `getDailyCounts`: "a
fixed-window (last 30 days) daily request count time series" — the counts
of the 30 consecutive calendar days ending on the current day. -/
def specFixedWindowCounts (logs : List LogRec) (now : Nat) : List (Nat × Nat) :=
  let today := now / 86400
  ((List.range 30).map (fun i => today + 1 + i - 30)).map
    (fun d => (d, (logs.filter (fun l => logDate l == d)).length))

/-! Concrete fixtures used by witnesses and counterexamples. -/

/-- A small store: user 1 (alice) owns menu 1 with dish 7 carrying one
emotion association; user 2 (bob) owns nothing. -/
def exStore : Store :=
  { users := [⟨1, "alice", none, "secret123", false, false⟩,
              ⟨2, "bob", none, "hunter2", false, false⟩]
    menus := [⟨1, "Dinner", "evening menu", some 1⟩]
    dishes := [⟨7, 1, "Soup", "warm", "starters", none, none, none, none, none,
                none, none, none, none, none, none⟩]
    emotions := [⟨3, "joy"⟩]
    textures := []
    shapes := []
    emotionDish := [(7, 3)]
    textureDish := []
    shapeDish := []
    logs := []
    nextMenuId := 2
    nextDishId := 8
    nextUserId := 3 }

/-- A cache holding both the spec's unprefixed key names and the code's
admin-prefixed ones. -/
def exCacheAll : Cache :=
  [("dashboard_stats", .stats ⟨0, 0, 0, 0, 0, 0, 0⟩),
   ("admin_dashboard_stats", .stats ⟨0, 0, 0, 0, 0, 0, 0⟩),
   ("admin_chart_data", .chart [] []),
   ("admin_recent_logs", .recent [])]

/-- A single request log row on calendar day 0. -/
def exOldLogs : List LogRec :=
  [⟨0, "GET", "/api/menus", 200, none⟩]

/-- A point in time on calendar day 100. -/
def exNow : Nat := 86400 * 100

/-- Three log rows spread over two calendar days. -/
def exLogs3 : List LogRec :=
  [⟨5, "GET", "/api/menus", 200, some 1⟩,
   ⟨86400 * 2, "POST", "/api/menus", 201, some 1⟩,
   ⟨86400 * 2 + 5, "GET", "/api/health", 200, none⟩]

/-- A token of user 1 issued at time 0. -/
def exToken : TokenRec := ⟨11, 1, 0⟩

/-- A second, distinct token of the same user. -/
def exToken2 : TokenRec := ⟨12, 1, 0⟩

/-! Helper lemmas. -/

/-- A body with a truthy value at some key is itself truthy. -/
theorem bodyTruthy_of_truthyKey (o : JObj) (k : String)
    (h : pyTruthyOpt (jget o k) = true) : bodyTruthy (some o) = true := by
  cases o with
  | nil => simp [jget, pyTruthyOpt] at h
  | cons p l => simp [bodyTruthy, List.isEmpty]

/-- Absence of a key in the cache, elementwise. -/
theorem cacheGet_eq_none_iff (c : Cache) (k : String) :
    cacheGet c k = none ↔ ∀ p ∈ c, p.1 ≠ k := by
  unfold cacheGet
  rw [Option.map_eq_none', List.find?_eq_none]
  simp

/-- Deleting a key removes it from the cache. -/
theorem cacheGet_cacheDelete_self (c : Cache) (k : String) :
    cacheGet (cacheDelete c k) k = none := by
  rw [cacheGet_eq_none_iff]
  intro p hp
  have := List.of_mem_filter hp
  simpa using this

/-- Deleting some other key preserves the absence of a key. -/
theorem cacheGet_cacheDelete_none (c : Cache) (k k' : String)
    (h : cacheGet c k = none) : cacheGet (cacheDelete c k') k = none := by
  rw [cacheGet_eq_none_iff] at h ⊢
  intro p hp
  exact h p (List.mem_of_mem_filter hp)

/-- Looking up a key in the filtered-out remainder of a delete of another
key is the same as looking it up directly. -/
theorem find?_cacheDelete_ne (c : Cache) (k k' : String) (hne : k ≠ k') :
    (cacheDelete c k').find? (fun p => p.1 == k) = c.find? (fun p => p.1 == k) := by
  unfold cacheDelete
  induction c with
  | nil => rfl
  | cons p l ih =>
    rw [List.filter_cons]
    by_cases hp : (p.1 == k')
    · have hb : (!(p.1 == k')) = false := by simp [hp]
      have hpk : (p.1 == k) = false := by
        rw [beq_eq_false_iff_ne]
        intro hh
        exact hne (hh.symm.trans (by simpa using hp))
      rw [hb, if_neg (by simp), ih, List.find?_cons, hpk]
    · have hb : (!(p.1 == k')) = true := by simp [hp]
      rw [hb, if_pos rfl]
      rw [List.find?_cons, List.find?_cons]
      cases hpk : (p.1 == k) with
      | true => rfl
      | false => exact ih

/-- Setting one key leaves the lookup of a different key unchanged. -/
theorem cacheGet_cacheSet_ne (c : Cache) (k k' : String) (v : CacheVal)
    (hne : k ≠ k') : cacheGet (cacheSet c k' v) k = cacheGet c k := by
  unfold cacheGet cacheSet
  rw [List.find?_append, find?_cacheDelete_ne c k k' hne]
  have hk : ((k', v).1 == k) = false := by
    simp only [beq_eq_false_iff_ne, ne_eq]
    exact fun hh => hne hh.symm
  cases hfind : c.find? (fun p => p.1 == k) with
  | none => simp [List.find?, hk]
  | some p => simp [List.find?, hk]

/-! Theorems settling the claims. -/

/-- C5: if persisting the RequestLog row in the logger middleware fails,
the session is rolled back and the original response is returned
unmodified: the store, the cache and the response (with its status code)
are exactly what they were before the logging attempt, for every request.
The reporting to the operator log stream is an output-only side effect
with no bearing on this state. -/
theorem logging_failure_isolated (r : ReqInfo) (tok : Option TokenRec)
    (now : Nat) (revoked : List Nat) (resp : Resp) (st : Store) (c : Cache) :
    handleRequest r tok now revoked false resp st c = ⟨resp, st, c⟩ := by
  unfold handleRequest afterRequest beforeRequest
  by_cases h : startsWithApi r.path <;> simp [h]

/-- C6: POST /auth/login answers with the identical 401 response both when
the username is absent from the store and when the user exists but the
password fails verification; the two runs are observationally equal. -/
theorem login_failure_indistinguishable
    (pwCheck : String → String → Bool) (st₁ st₂ : Store) (o₁ o₂ : JObj)
    (jti₁ jti₂ now₁ now₂ : Nat) (u : UserRec)
    (h₁u : pyTruthyOpt (jget o₁ "username") = true)
    (h₁p : pyTruthyOpt (jget o₁ "password") = true)
    (h₁ : getByUsername st₁ (fieldStrD o₁ "username") = none)
    (h₂u : pyTruthyOpt (jget o₂ "username") = true)
    (h₂p : pyTruthyOpt (jget o₂ "password") = true)
    (h₂ : getByUsername st₂ (fieldStrD o₂ "username") = some u)
    (h₂pw : pwCheck u.passwordHash (fieldStrD o₂ "password") = false) :
    login pwCheck st₁ (some o₁) jti₁ now₁ = ⟨401, .errMsg "Invalid credentials"⟩
    ∧ login pwCheck st₂ (some o₂) jti₂ now₂ = ⟨401, .errMsg "Invalid credentials"⟩
    ∧ login pwCheck st₁ (some o₁) jti₁ now₁ =
        login pwCheck st₂ (some o₂) jti₂ now₂ := by
  have hb₁ := bodyTruthy_of_truthyKey o₁ "username" h₁u
  have hb₂ := bodyTruthy_of_truthyKey o₂ "username" h₂u
  refine ⟨?_, ?_, ?_⟩
  · unfold login
    simp [hb₁, h₁u, h₁p, h₁]
  · unfold login
    simp [hb₂, h₂u, h₂p, h₂, h₂pw]
  · unfold login
    simp [hb₁, h₁u, h₁p, h₁, hb₂, h₂u, h₂p, h₂, h₂pw]

/-- Witness for C6 at concrete inputs: `zoe` is unregistered, `alice`
exists with another password; both logins produce the same 401. -/
theorem login_failure_indistinguishable_witness :
    login (fun h p => h == p) exStore
        (some [("username", .jstr "zoe"), ("password", .jstr "x")]) 0 0 =
      ⟨401, .errMsg "Invalid credentials"⟩
    ∧ login (fun h p => h == p) exStore
        (some [("username", .jstr "alice"), ("password", .jstr "wrong")]) 1 9 =
      ⟨401, .errMsg "Invalid credentials"⟩ := by
  have h := login_failure_indistinguishable (fun h p => h == p) exStore exStore
    [("username", .jstr "zoe"), ("password", .jstr "x")]
    [("username", .jstr "alice"), ("password", .jstr "wrong")]
    0 1 0 9 ⟨1, "alice", none, "secret123", false, false⟩
    (by decide) (by decide) (by decide) (by decide) (by decide) (by decide)
    (by decide)
  exact ⟨h.1, h.2.1⟩

/-- C9: the creation endpoints treat a parsed body of `{}` exactly like an
absent body: register, login, menu creation and dish creation all answer
400 with error "No data provided" on the empty object, even though menu
creation otherwise defaults every missing field to the empty string (last
conjunct: any truthy body without `title`/`description` yields 201 and a
menu whose title and description are empty). -/
theorem empty_json_body_rejected
    (pwHash : String → String) (pwCheck : String → String → Bool)
    (st : Store) (uid menuId jti now : Nat) (m : MenuRec)
    (hm : findMenu st menuId = some m) (ho : m.owner = some uid) :
    registerUser pwHash st (some []) = (⟨400, .errMsg "No data provided"⟩, st)
    ∧ login pwCheck st (some []) jti now = ⟨400, .errMsg "No data provided"⟩
    ∧ createMenu st uid (some []) = (⟨400, .errMsg "No data provided"⟩, st)
    ∧ createDish st uid menuId (some []) = (⟨400, .errMsg "No data provided"⟩, st)
    ∧ registerUser pwHash st none = registerUser pwHash st (some [])
    ∧ login pwCheck st none jti now = login pwCheck st (some []) jti now
    ∧ createMenu st uid none = createMenu st uid (some [])
    ∧ createDish st uid menuId none = createDish st uid menuId (some [])
    ∧ (∀ o : JObj, bodyTruthy (some o) = true → jget o "title" = none →
        jget o "description" = none →
        createMenu st uid (some o) =
          (⟨201, .created "Menu created" st.nextMenuId⟩,
            { st with menus := st.menus ++ [⟨st.nextMenuId, "", "", some uid⟩],
                      nextMenuId := st.nextMenuId + 1 })) := by
  have hown : ¬(m.owner ≠ some uid) := by simp [ho]
  refine ⟨?_, ?_, ?_, ?_, ?_, ?_, ?_, ?_, ?_⟩
  · unfold registerUser; rfl
  · unfold login; rfl
  · unfold createMenu; rfl
  · unfold createDish
    rw [hm]
    simp [hown, bodyTruthy]
  · unfold registerUser; rfl
  · unfold login; rfl
  · unfold createMenu; rfl
  · unfold createDish
    rw [hm]
    simp [hown, bodyTruthy]
  · intro o hb ht hd
    unfold createMenu
    rw [hb]
    simp [fieldStrD, ht, hd]

/-- Witness for C9: in the concrete store, bob (user 2) sending `{}` to
each creation endpoint gets 400 "No data provided" (for dish creation,
against his own freshly conceived menu 1 owned by alice — so instead use
alice, user 1, who owns menu 1). -/
theorem empty_json_body_rejected_witness :
    registerUser id exStore (some []) = (⟨400, .errMsg "No data provided"⟩, exStore)
    ∧ createDish exStore 1 1 (some []) =
        (⟨400, .errMsg "No data provided"⟩, exStore) := by
  have h := empty_json_body_rejected id (fun h p => h == p) exStore 1 1 0 0
    ⟨1, "Dinner", "evening menu", some 1⟩ (by decide) (by decide)
  exact ⟨h.1, h.2.2.2.1⟩

/-- C10: PUT /api/menus/{id} by the owner applies `title`/`description`
only when the payload value is truthy.  With well-typed payload values
(string or null, as the schema prescribes): the update answers 200; rows
with a different id are untouched; the target row keeps its id and owner,
keeps its title (resp. description) whenever the payload value is absent,
the empty string, or null, and its title never becomes the empty string if
it was not empty before. -/
theorem update_menu_truthy_fields
    (st : Store) (uid menuId : Nat) (o : JObj) (m : MenuRec)
    (hnd : (st.menus.map (·.id)).Nodup)
    (hm : findMenu st menuId = some m) (ho : m.owner = some uid)
    (ht : ∀ v, jget o "title" = some v → (∃ s, v = JVal.jstr s) ∨ v = JVal.jnull) :
    (updateMenu st uid menuId (some o)).1 = ⟨200, .msg "Menu updated"⟩
    ∧ ∃ u : MenuRec,
        (updateMenu st uid menuId (some o)).2 =
          { st with menus := st.menus.map (fun x => if x.id == menuId then u else x) }
        ∧ u.id = m.id ∧ u.owner = m.owner
        ∧ ((jget o "title" = none ∨ jget o "title" = some (JVal.jstr "")
              ∨ jget o "title" = some JVal.jnull) → u.title = m.title)
        ∧ ((jget o "description" = none ∨ jget o "description" = some (JVal.jstr "")
              ∨ jget o "description" = some JVal.jnull) →
            u.description = m.description)
        ∧ (m.title ≠ "" → u.title ≠ "")
        ∧ (∀ x ∈ st.menus, x.id ≠ menuId →
            x ∈ (updateMenu st uid menuId (some o)).2.menus) := by
  have hown : ¬(m.owner ≠ some uid) := by simp [ho]
  have hu :
      (updateMenu st uid menuId (some o)).2 =
        { st with menus := st.menus.map (fun x =>
            if x.id == menuId then
              { x with
                title := match jget o "title" with
                  | some v => if v.truthy then v.toStr else m.title
                  | none => m.title
                description := match jget o "description" with
                  | some v => if v.truthy then v.toStr else m.description
                  | none => m.description }
            else x) } := by
    unfold updateMenu
    rw [hm]
    simp [hown]
  have hresp : (updateMenu st uid menuId (some o)).1 = ⟨200, .msg "Menu updated"⟩ := by
    unfold updateMenu
    rw [hm]
    simp [hown]
  have hmmem : m ∈ st.menus := List.mem_of_find?_eq_some hm
  have hmid : m.id = menuId := by simpa using List.find?_some hm
  refine ⟨hresp,
    ⟨{ m with
        title := match jget o "title" with
          | some v => if v.truthy then v.toStr else m.title
          | none => m.title
        description := match jget o "description" with
          | some v => if v.truthy then v.toStr else m.description
          | none => m.description }, ?_, rfl, rfl, ?_, ?_, ?_, ?_⟩⟩
  · rw [hu]
    have : st.menus.map (fun x =>
        if x.id == menuId then
          { x with
            title := match jget o "title" with
              | some v => if v.truthy then v.toStr else m.title
              | none => m.title
            description := match jget o "description" with
              | some v => if v.truthy then v.toStr else m.description
              | none => m.description }
        else x) =
      st.menus.map (fun x =>
        if x.id == menuId then
          { m with
            title := match jget o "title" with
              | some v => if v.truthy then v.toStr else m.title
              | none => m.title
            description := match jget o "description" with
              | some v => if v.truthy then v.toStr else m.description
              | none => m.description }
        else x) := by
      apply List.map_congr_left
      intro x hx
      by_cases hid : x.id = menuId
      · have hxm : x = m :=
          List.inj_on_of_nodup_map hnd hx hmmem (by rw [hid, hmid])
        simp [hid, hxm]
      · simp [hid]
    rw [this]
  · rintro (h | h | h) <;> simp [h, JVal.truthy]
  · rintro (h | h | h) <;> simp [h, JVal.truthy]
  · intro hne
    cases hv : jget o "title" with
    | none => simpa [hv] using hne
    | some v =>
      rcases ht v hv with ⟨s, rfl⟩ | rfl
      · by_cases hs : s = ""
        · simpa [hv, hs, JVal.truthy] using hne
        · simp [hv, JVal.truthy, hs, JVal.toStr]
      · simpa [hv, JVal.truthy] using hne
  · intro x hx hxid
    rw [hu]
    simp only [Store.mk.injEq]
    have hb : (x.id == menuId) = false := by simpa using hxid
    refine List.mem_map.mpr ⟨x, hx, ?_⟩
    rw [hb]
    simp

/-- Witness for C10: alice updates menu 1 with an empty title and a null
description; the row keeps both fields (and the title stays nonempty). -/
theorem update_menu_truthy_fields_witness :
    (updateMenu exStore 1 1
        (some [("title", .jstr ""), ("description", .jnull)])).1 =
      ⟨200, .msg "Menu updated"⟩
    ∧ ∃ u : MenuRec,
        (updateMenu exStore 1 1
            (some [("title", .jstr ""), ("description", .jnull)])).2 =
          { exStore with menus := exStore.menus.map (fun x =>
              if x.id == 1 then u else x) }
        ∧ u.id = 1 ∧ u.owner = some 1
        ∧ u.title = "Dinner" ∧ u.description = "evening menu" := by
  have h := update_menu_truthy_fields exStore 1 1
    [("title", .jstr ""), ("description", .jnull)]
    ⟨1, "Dinner", "evening menu", some 1⟩
    (by decide) (by decide) (by decide)
    (by intro v hv; simp [jget, List.find?] at hv; exact Or.inl ⟨"", hv.symm⟩)
  obtain ⟨h1, u, hu, hid, hown, htit, hdesc, _, _⟩ := h
  exact ⟨h1, u, hu, hid, hown,
    htit (Or.inr (Or.inl (by decide))), hdesc (Or.inr (Or.inr (by decide)))⟩

/-- C4: a token authorizes exactly until its fixed 1-hour expiry or until
logout with it, whichever first — a live token lets the guarded handler
run and logout adds its jti to the revocation set (1); an expired (2) or
revoked (3) token is rejected with 401 and the store untouched; after
logout of `t`, presenting exactly `t` fails with 401 at every later time
(4), while any other unexpired, unrevoked token — same user included —
is still accepted (5). -/
theorem token_revocation_semantics
    (t t' : TokenRec) (now now' : Nat) (revoked : List Nat) (st : Store)
    (h : Nat → Resp × Store) :
    (tokenFresh t now = true → checkIfTokenRevoked revoked t = false →
      withAuth (some t) now revoked st h = h t.sub
      ∧ logout (some t) now revoked =
          (⟨200, .msg "Successfully logged out"⟩, revoked.insert t.jti))
    ∧ (tokenFresh t now = false →
        (withAuth (some t) now revoked st h).1.status = 401
        ∧ (withAuth (some t) now revoked st h).2 = st)
    ∧ (checkIfTokenRevoked revoked t = true →
        (withAuth (some t) now revoked st h).1.status = 401
        ∧ (withAuth (some t) now revoked st h).2 = st)
    ∧ ((withAuth (some t) now' (revoked.insert t.jti) st h).1.status = 401
        ∧ (withAuth (some t) now' (revoked.insert t.jti) st h).2 = st)
    ∧ (t'.jti ≠ t.jti → tokenFresh t' now' = true →
        checkIfTokenRevoked revoked t' = false →
        withAuth (some t') now' (revoked.insert t.jti) st h = h t'.sub) := by
  refine ⟨?_, ?_, ?_, ?_, ?_⟩
  · intro hf hr
    constructor
    · unfold withAuth authGuard
      simp [hf, hr]
    · unfold logout
      simp [hf, hr]
  · intro hf
    unfold withAuth authGuard
    simp [hf]
  · intro hr
    unfold withAuth authGuard
    by_cases hf : tokenFresh t now <;> simp [hf, hr]
  · have hrev : checkIfTokenRevoked (revoked.insert t.jti) t = true := by
      unfold checkIfTokenRevoked
      simp [List.elem_iff, List.mem_insert_iff]
    unfold withAuth authGuard
    by_cases hf : tokenFresh t now' <;> simp [hf, hrev]
  · intro hne hf hr
    have hrev : checkIfTokenRevoked (revoked.insert t.jti) t' = false := by
      unfold checkIfTokenRevoked at hr ⊢
      rw [Bool.eq_false_iff, ne_eq, List.elem_iff] at hr ⊢
      simp only [List.mem_insert_iff]
      push_neg
      exact ⟨hne, hr⟩
    unfold withAuth authGuard
    simp [hf, hrev]

/-- Witness for C4 at concrete inputs: after alice logs out her first
token, it is refused everywhere while her second token still reaches the
handler. -/
theorem token_revocation_semantics_witness :
    (withAuth (some exToken) 10 [] exStore (getMenus exStore) =
        getMenus exStore 1
      ∧ logout (some exToken) 10 [] =
          (⟨200, .msg "Successfully logged out"⟩, [11]))
    ∧ ((withAuth (some exToken) 20 ([].insert exToken.jti) exStore
          (getMenus exStore)).1.status = 401)
    ∧ withAuth (some exToken2) 20 ([].insert exToken.jti) exStore
        (getMenus exStore) = getMenus exStore 1 := by
  have h := token_revocation_semantics exToken exToken2 10 20 [] exStore
    (getMenus exStore)
  exact ⟨h.1 (by decide) (by decide),
    (h.2.2.2.1).1,
    h.2.2.2.2 (by decide) (by decide) (by decide)⟩

/-- C2: a completed request with an API-prefixed path whose log write
succeeds appends exactly one RequestLog row, carrying the method and path
captured by the `before` phase, the status code of the response actually
returned, and a user id exactly when a valid, unexpired, unrevoked token
was presented; a request whose path is not API-prefixed never appends a
row, whether or not the store is healthy. -/
theorem middleware_logs_api_requests
    (r : ReqInfo) (tok : Option TokenRec) (now : Nat) (revoked : List Nat)
    (resp : Resp) (st : Store) (c : Cache) :
    (startsWithApi r.path = true →
      (handleRequest r tok now revoked true resp st c).store.logs =
        st.logs ++
          [⟨now, r.method, r.path, resp.status, optionalIdentity tok now revoked⟩]
      ∧ (handleRequest r tok now revoked true resp st c).resp = resp)
    ∧ (startsWithApi r.path = false → ∀ dbOk,
        (handleRequest r tok now revoked dbOk resp st c).store = st
        ∧ (handleRequest r tok now revoked dbOk resp st c).resp = resp)
    ∧ (∀ u : Nat, optionalIdentity tok now revoked = some u ↔
        ∃ t : TokenRec, tok = some t ∧ t.sub = u ∧ tokenFresh t now = true
          ∧ checkIfTokenRevoked revoked t = false) := by
  refine ⟨?_, ?_, ?_⟩
  · intro hapi
    unfold handleRequest beforeRequest afterRequest
    simp [hapi]
  · intro hnon dbOk
    unfold handleRequest beforeRequest afterRequest
    simp [hnon]
  · intro u
    unfold optionalIdentity
    cases tok with
    | none => simp
    | some t =>
      by_cases hf : tokenFresh t now
      · by_cases hr : checkIfTokenRevoked revoked t
        · simp [hf, hr]
        · simp only [hf, hr]
          constructor
          · rintro h
            exact ⟨t, rfl, by simpa using h, hf, by simpa using hr⟩
          · rintro ⟨t', ht', hsub, _, _⟩
            cases ht'
            simp [hsub]
      · simp only [hf]
        constructor
        · rintro h
          simp at h
        · rintro ⟨t', ht', _, hf', _⟩
          cases ht'
          rw [hf'] at hf
          exact absurd rfl hf

/-- Witness for C2: an anonymous API request appends exactly its one row;
a non-API request leaves the store alone; a live token yields its user id.
-/
theorem middleware_logs_api_requests_witness :
    ((handleRequest ⟨"GET", "/api/menus"⟩ none 5 [] true ⟨200, .noContent⟩
        exStore []).store.logs =
      [⟨5, "GET", "/api/menus", 200, none⟩])
    ∧ (handleRequest ⟨"GET", "/admin"⟩ none 5 [] true ⟨200, .noContent⟩
        exStore []).store = exStore
    ∧ optionalIdentity (some exToken) 10 [] = some 1 := by
  have h := middleware_logs_api_requests ⟨"GET", "/api/menus"⟩ none 5 []
    ⟨200, .noContent⟩ exStore []
  have h2 := middleware_logs_api_requests ⟨"GET", "/admin"⟩ none 5 []
    ⟨200, .noContent⟩ exStore []
  have h3 := middleware_logs_api_requests ⟨"GET", "/api/menus"⟩ (some exToken)
    10 [] ⟨200, .noContent⟩ exStore []
  refine ⟨?_, (h2.2.1 (by decide) true).1, ?_⟩
  · have := (h.1 (by decide)).1
    simpa [exStore] using this
  · exact (h3.2.2 1).mpr ⟨exToken, rfl, rfl, by decide, by decide⟩

/-- C3, counterexample to the claim as stated: after an API request
completes, a cache entry literally named `dashboard_stats` is not evicted
(the middleware deletes only the `admin_`-prefixed keys), and when the
log write fails even `admin_dashboard_stats` survives. -/
theorem cache_eviction_claim_counterexample :
    cacheGet (handleRequest ⟨"GET", "/api/menus"⟩ none 5 [] true
        ⟨200, .noContent⟩ exStore exCacheAll).cache "dashboard_stats" ≠ none
    ∧ cacheGet (handleRequest ⟨"GET", "/api/menus"⟩ none 5 [] false
        ⟨200, .noContent⟩ exStore exCacheAll).cache "admin_dashboard_stats" ≠
      none := by
  decide

/-- C3, amended: immediately after any API-prefixed request whose log
write succeeds, the three dashboard cache entries — actually named
`admin_dashboard_stats`, `admin_chart_data`, `admin_recent_logs` — are
absent from the cache, regardless of authentication or handler outcome;
when the log write fails, the cache is left untouched. -/
theorem cache_eviction_amended
    (r : ReqInfo) (tok : Option TokenRec) (now : Nat) (revoked : List Nat)
    (resp : Resp) (st : Store) (c : Cache)
    (hapi : startsWithApi r.path = true) :
    cacheGet (handleRequest r tok now revoked true resp st c).cache
        "admin_dashboard_stats" = none
    ∧ cacheGet (handleRequest r tok now revoked true resp st c).cache
        "admin_chart_data" = none
    ∧ cacheGet (handleRequest r tok now revoked true resp st c).cache
        "admin_recent_logs" = none
    ∧ (handleRequest r tok now revoked false resp st c).cache = c := by
  have hc : (handleRequest r tok now revoked true resp st c).cache =
      cacheDelete (cacheDelete (cacheDelete c "admin_dashboard_stats")
        "admin_chart_data") "admin_recent_logs" := by
    unfold handleRequest beforeRequest afterRequest
    simp [hapi]
  have hfail : (handleRequest r tok now revoked false resp st c).cache = c := by
    unfold handleRequest beforeRequest afterRequest
    simp [hapi]
  refine ⟨?_, ?_, ?_, hfail⟩
  · rw [hc]
    exact cacheGet_cacheDelete_none _ _ _
      (cacheGet_cacheDelete_none _ _ _ (cacheGet_cacheDelete_self c _))
  · rw [hc]
    exact cacheGet_cacheDelete_none _ _ _ (cacheGet_cacheDelete_self _ _)
  · rw [hc]
    exact cacheGet_cacheDelete_self _ _

/-- Witness for the amended C3 at a concrete input: an unauthenticated
API request against a fully populated cache evicts all three
admin-prefixed keys. -/
theorem cache_eviction_amended_witness :
    cacheGet (handleRequest ⟨"GET", "/api/menus"⟩ none 5 [] true
        ⟨500, .noContent⟩ exStore exCacheAll).cache "admin_dashboard_stats" =
      none
    ∧ cacheGet (handleRequest ⟨"GET", "/api/menus"⟩ none 5 [] true
        ⟨500, .noContent⟩ exStore exCacheAll).cache "admin_chart_data" = none
    ∧ cacheGet (handleRequest ⟨"GET", "/api/menus"⟩ none 5 [] true
        ⟨500, .noContent⟩ exStore exCacheAll).cache "admin_recent_logs" =
      none := by
  have h := cache_eviction_amended ⟨"GET", "/api/menus"⟩ none 5 []
    ⟨500, .noContent⟩ exStore exCacheAll (by decide)
  exact ⟨h.1, h.2.1, h.2.2.1⟩

/-- C1: ownership isolation on the menu/dish API under user B's token.
(i) A nonexistent menu makes GET/PUT/DELETE /api/menus/id and
GET/POST /api/menus/id/dishes answer 404 with the store unchanged — the
existence check runs before the ownership check; (ii) an existing menu
whose owner differs from B yields 403 with the store unchanged on all
five; (iii) a nonexistent dish makes PUT/DELETE /api/dishes/id answer
404; (iv) an existing dish whose owning menu belongs to someone else
yields 403 with the store unchanged; (v) B's listing contains only
entries derived from B-owned menus, so under primary-key uniqueness a
menu of a distinct user A never appears in it. -/
theorem api_ownership_isolation
    (st : Store) (uidA uidB menuId dishId : Nat) (data : Option JObj) :
    (findMenu st menuId = none →
      getMenu st uidB menuId = (⟨404, .errMsg "Menu not found"⟩, st)
      ∧ updateMenu st uidB menuId data = (⟨404, .errMsg "Menu not found"⟩, st)
      ∧ deleteMenu st uidB menuId = (⟨404, .errMsg "Menu not found"⟩, st)
      ∧ getDishes st uidB menuId = (⟨404, .errMsg "Menu not found"⟩, st)
      ∧ createDish st uidB menuId data = (⟨404, .errMsg "Menu not found"⟩, st))
    ∧ (∀ m : MenuRec, findMenu st menuId = some m → m.owner ≠ some uidB →
        getMenu st uidB menuId = (⟨403, .errMsg "Unauthorized"⟩, st)
        ∧ updateMenu st uidB menuId data = (⟨403, .errMsg "Unauthorized"⟩, st)
        ∧ deleteMenu st uidB menuId = (⟨403, .errMsg "Unauthorized"⟩, st)
        ∧ getDishes st uidB menuId = (⟨403, .errMsg "Unauthorized"⟩, st)
        ∧ createDish st uidB menuId data = (⟨403, .errMsg "Unauthorized"⟩, st))
    ∧ (findDish st dishId = none →
        updateDish st uidB dishId data = (⟨404, .errMsg "Dish not found"⟩, st)
        ∧ deleteDish st uidB dishId = (⟨404, .errMsg "Dish not found"⟩, st))
    ∧ (∀ (d : DishRec) (m : MenuRec), findDish st dishId = some d →
        findMenu st d.menuId = some m → m.owner ≠ some uidB →
        updateDish st uidB dishId data = (⟨403, .errMsg "Unauthorized"⟩, st)
        ∧ deleteDish st uidB dishId = (⟨403, .errMsg "Unauthorized"⟩, st))
    ∧ (∃ items : List MenuSummary,
        (getMenus st uidB).1 = ⟨200, .menuList items⟩
        ∧ (getMenus st uidB).2 = st
        ∧ (∀ it ∈ items, ∃ mm ∈ st.menus, mm.owner = some uidB ∧ it.id = mm.id)
        ∧ ((st.menus.map (·.id)).Nodup → uidA ≠ uidB →
            ∀ mm ∈ st.menus, mm.owner = some uidA →
              ∀ it ∈ items, it.id ≠ mm.id)) := by
  refine ⟨?_, ?_, ?_, ?_, ?_⟩
  · intro hnone
    refine ⟨?_, ?_, ?_, ?_, ?_⟩ <;>
      (simp only [getMenu, updateMenu, deleteMenu, getDishes, createDish];
        rw [hnone])
  · intro m hm hown
    refine ⟨?_, ?_, ?_, ?_, ?_⟩ <;>
      (simp only [getMenu, updateMenu, deleteMenu, getDishes, createDish];
        simp [hm, hown])
  · intro hnone
    constructor <;>
      (simp only [updateDish, deleteDish]; rw [hnone])
  · intro d m hd hm hown
    constructor <;>
      (simp only [updateDish, deleteDish]; simp [hd, hm, hown])
  · refine ⟨(st.menus.filter (fun m => m.owner == some uidB)).map
      (fun m => MenuSummary.mk m.id m.title m.description (menuDishes st m.id).length),
      ?_, ?_, ?_, ?_⟩
    · rfl
    · rfl
    · intro it hit
      obtain ⟨mm, hmm, rfl⟩ := List.mem_map.mp hit
      have hmem := List.mem_of_mem_filter hmm
      have hown := List.of_mem_filter hmm
      exact ⟨mm, hmem, by simpa using hown, rfl⟩
    · intro hnd hAB mm hmm hmmA it hit
      obtain ⟨mm', hmm', rfl⟩ := List.mem_map.mp hit
      have hmem' := List.mem_of_mem_filter hmm'
      have hown' : mm'.owner = some uidB := by simpa using List.of_mem_filter hmm'
      intro hid
      have : mm' = mm := List.inj_on_of_nodup_map hnd hmem' hmm hid
      rw [this, hmmA] at hown'
      exact hAB (by simpa using hown')

/-- Witness for C1: bob (user 2) cannot read the missing menu 5 (404),
cannot read, rewrite or delete alice's menu 1 or touch her dish 7 (403,
store unchanged), and his listing is empty. -/
theorem api_ownership_isolation_witness :
    getMenu exStore 2 5 = (⟨404, .errMsg "Menu not found"⟩, exStore)
    ∧ deleteMenu exStore 2 1 = (⟨403, .errMsg "Unauthorized"⟩, exStore)
    ∧ deleteDish exStore 2 7 = (⟨403, .errMsg "Unauthorized"⟩, exStore)
    ∧ ∃ items : List MenuSummary,
        (getMenus exStore 2).1 = ⟨200, .menuList items⟩
        ∧ ∀ it ∈ items, ∃ mm ∈ exStore.menus, mm.owner = some 2 ∧ it.id = mm.id := by
  have h5 := api_ownership_isolation exStore 1 2 5 7 none
  have h1 := api_ownership_isolation exStore 1 2 1 7 none
  obtain ⟨items, hi1, _, hi3, _⟩ := h5.2.2.2.2
  exact ⟨(h5.1 (by decide)).1,
    (h1.2.1 ⟨1, "Dinner", "evening menu", some 1⟩ (by decide) (by decide)).2.2.1,
    (h1.2.2.2.1 ⟨7, 1, "Soup", "warm", "starters", none, none, none, none, none,
        none, none, none, none, none, none⟩
      ⟨1, "Dinner", "evening menu", some 1⟩ (by decide) (by decide)
      (by decide)).2,
    items, hi1, hi3⟩

/-- C8: deleting a menu as its owner answers 200 and transitively removes
the menu row, every dish whose `menu_id` is the menu's id, and every
emotion/texture/shape join row of those dishes, while keeping the dishes
of other menus; no dish of the deleted menu survives and no join row
references a deleted dish. -/
theorem menu_delete_cascade
    (st : Store) (uid menuId : Nat) (m : MenuRec)
    (hm : findMenu st menuId = some m) (ho : m.owner = some uid) :
    (deleteMenu st uid menuId).1 = ⟨200, .msg "Menu deleted"⟩
    ∧ findMenu (deleteMenu st uid menuId).2 menuId = none
    ∧ (∀ d ∈ (deleteMenu st uid menuId).2.dishes, d.menuId ≠ menuId)
    ∧ (∀ d ∈ st.dishes, d.menuId = menuId → d ∉ (deleteMenu st uid menuId).2.dishes)
    ∧ (∀ d ∈ st.dishes, d.menuId ≠ menuId → d ∈ (deleteMenu st uid menuId).2.dishes)
    ∧ (∀ d ∈ st.dishes, d.menuId = menuId →
        (∀ p ∈ (deleteMenu st uid menuId).2.emotionDish, p.1 ≠ d.id)
        ∧ (∀ p ∈ (deleteMenu st uid menuId).2.textureDish, p.1 ≠ d.id)
        ∧ (∀ p ∈ (deleteMenu st uid menuId).2.shapeDish, p.1 ≠ d.id)) := by
  have hown : ¬(m.owner ≠ some uid) := by simp [ho]
  have hdel : deleteMenu st uid menuId =
      (⟨200, .msg "Menu deleted"⟩, cascadeDeleteMenu st menuId) := by
    unfold deleteMenu
    rw [hm]
    simp [hown]
  rw [hdel]
  refine ⟨rfl, ?_, ?_, ?_, ?_, ?_⟩
  · unfold findMenu cascadeDeleteMenu
    simp only
    rw [List.find?_eq_none]
    intro x hx
    have := List.of_mem_filter hx
    simp only [Bool.not_eq_true'] at this
    simp [this]
  · intro d hd
    have := List.of_mem_filter hd
    simpa using this
  · intro d hd hdm hmem
    have := List.of_mem_filter hmem
    simp [hdm] at this
  · intro d hd hdm
    unfold cascadeDeleteMenu
    simp only
    refine List.mem_filter.mpr ⟨hd, ?_⟩
    simpa using hdm
  · intro d hd hdm
    have hdoomed : d.id ∈ ((st.dishes.filter (fun x => x.menuId == menuId)).map (·.id)) :=
      List.mem_map.mpr ⟨d, List.mem_filter.mpr ⟨hd, by simpa using hdm⟩, rfl⟩
    refine ⟨?_, ?_, ?_⟩ <;>
      · intro p hp
        have hcon := List.of_mem_filter hp
        simp only [Bool.not_eq_true'] at hcon
        intro hpd
        rw [hpd] at hcon
        have htrue : ((st.dishes.filter (fun x => x.menuId == menuId)).map
            (·.id)).contains d.id = true := List.elem_iff.mpr hdoomed
        rw [htrue] at hcon
        exact Bool.noConfusion hcon

/-- Witness for C8: alice deletes menu 1; dish 7 and its emotion
association disappear with it. -/
theorem menu_delete_cascade_witness :
    (deleteMenu exStore 1 1).1 = ⟨200, .msg "Menu deleted"⟩
    ∧ findMenu (deleteMenu exStore 1 1).2 1 = none
    ∧ (⟨7, 1, "Soup", "warm", "starters", none, none, none, none, none,
        none, none, none, none, none, none⟩ : DishRec) ∉
        (deleteMenu exStore 1 1).2.dishes
    ∧ ∀ p ∈ (deleteMenu exStore 1 1).2.emotionDish, p.1 ≠ 7 := by
  have h := menu_delete_cascade exStore 1 1 ⟨1, "Dinner", "evening menu", some 1⟩
    (by decide) (by decide)
  refine ⟨h.1, h.2.1, ?_, ?_⟩
  · exact h.2.2.2.1 _ (by decide) (by decide)
  · intro p hp
    exact (h.2.2.2.2.2 ⟨7, 1, "Soup", "warm", "starters", none, none, none, none,
      none, none, none, none, none, none, none⟩ (by decide) (by decide)).1 p hp

/-- Lookup after a set of a different key. -/
theorem cacheGet_cacheSet_none (c : Cache) (k k' : String) (v : CacheVal)
    (hne : k ≠ k') (h : cacheGet c k = none) :
    cacheGet (cacheSet c k' v) k = none := by
  rw [cacheGet_cacheSet_ne c k k' v hne]
  exact h

/-- The dashboard view recomputes chart and recent data on a cache miss. -/
theorem dashboardIndex_miss (st : Store) (c : Cache)
    (hchart : cacheGet c "admin_chart_data" = none)
    (hrec : cacheGet c "admin_recent_logs" = none) :
    (dashboardIndex st c).1.chartLabels = (computeChart st.logs).1
    ∧ (dashboardIndex st c).1.chartValues = (computeChart st.logs).2
    ∧ (dashboardIndex st c).1.recentLogs = getRecent st.logs 10 := by
  unfold dashboardIndex
  rcases hstats : cacheGet c "admin_dashboard_stats" with _ | v
  case _ =>
    have hc1 : cacheGet (cacheSet c "admin_dashboard_stats"
        (.stats (computeStats st))) "admin_chart_data" = none :=
      cacheGet_cacheSet_none c _ _ _ (by decide) hchart
    have hc1r : cacheGet (cacheSet c "admin_dashboard_stats"
        (.stats (computeStats st))) "admin_recent_logs" = none :=
      cacheGet_cacheSet_none c _ _ _ (by decide) hrec
    have hc2r : cacheGet (cacheSet (cacheSet c "admin_dashboard_stats"
        (.stats (computeStats st))) "admin_chart_data"
        (.chart (computeChart st.logs).1 (computeChart st.logs).2))
        "admin_recent_logs" = none :=
      cacheGet_cacheSet_none _ _ _ _ (by decide) hc1r
    simp [hstats, hc1, hc2r]
  case _ =>
    cases v with
    | stats s =>
      have hc2r : cacheGet (cacheSet c "admin_chart_data"
          (.chart (computeChart st.logs).1 (computeChart st.logs).2))
          "admin_recent_logs" = none :=
        cacheGet_cacheSet_none _ _ _ _ (by decide) hrec
      simp [hstats, hchart, hc2r]
    | chart ls vs =>
      have hc1 : cacheGet (cacheSet c "admin_dashboard_stats"
          (.stats (computeStats st))) "admin_chart_data" = none :=
        cacheGet_cacheSet_none c _ _ _ (by decide) hchart
      have hc1r : cacheGet (cacheSet c "admin_dashboard_stats"
          (.stats (computeStats st))) "admin_recent_logs" = none :=
        cacheGet_cacheSet_none c _ _ _ (by decide) hrec
      have hc2r : cacheGet (cacheSet (cacheSet c "admin_dashboard_stats"
          (.stats (computeStats st))) "admin_chart_data"
          (.chart (computeChart st.logs).1 (computeChart st.logs).2))
          "admin_recent_logs" = none :=
        cacheGet_cacheSet_none _ _ _ _ (by decide) hc1r
      simp [hstats, hc1, hc2r]
    | recent ls =>
      have hc1 : cacheGet (cacheSet c "admin_dashboard_stats"
          (.stats (computeStats st))) "admin_chart_data" = none :=
        cacheGet_cacheSet_none c _ _ _ (by decide) hchart
      have hc1r : cacheGet (cacheSet c "admin_dashboard_stats"
          (.stats (computeStats st))) "admin_recent_logs" = none :=
        cacheGet_cacheSet_none c _ _ _ (by decide) hrec
      have hc2r : cacheGet (cacheSet (cacheSet c "admin_dashboard_stats"
          (.stats (computeStats st))) "admin_chart_data"
          (.chart (computeChart st.logs).1 (computeChart st.logs).2))
          "admin_recent_logs" = none :=
        cacheGet_cacheSet_none _ _ _ _ (by decide) hc1r
      simp [hstats, hc1, hc2r]

/-- C7, counterexample to the fixed-window reading: with a single log row
on calendar day 0 and the current time on day 100, the recomputed chart
contains day 0 — a day outside every last-30-days window — whereas the
spec-modelled fixed-window series does not. -/
theorem daily_counts_window_counterexample :
    (computeChart exOldLogs).1 = [0]
    ∧ 0 ∉ (specFixedWindowCounts exOldLogs exNow).map Prod.fst
    ∧ (computeChart exOldLogs).1 ≠
        (specFixedWindowCounts exOldLogs exNow).map Prod.fst := by
  decide

/-- C7, amended: on a dashboard cache miss the chart series is recomputed
from the store as the daily request counts of the up to 30 most recent
distinct days that have at least one logged request — not of a fixed
calendar window — ordered chronologically (oldest to newest), and the
recent-activity excerpt as the N most recent rows ordered by timestamp
descending.  Concretely: chart labels are strictly increasing; every
chart row carries the exact count of its day and stems from some logged
request; any logged day missing from the chart is older than every
charted day; the recent excerpt is sorted by timestamp descending, is a
prefix of a permutation of the log whose dropped remainder is nowhere
newer, and has length min N (number of rows); and the dashboard view on a
miss returns exactly these recomputations. -/
theorem dashboard_recompute_amended (logs : List LogRec) (n : Nat)
    (st : Store) (c : Cache) :
    (computeChart logs).1.Pairwise (· < ·)
    ∧ (∀ p ∈ getDailyCounts logs 30,
        p.2 = (logs.filter (fun l => logDate l == p.1)).length
        ∧ ∃ l ∈ logs, logDate l = p.1)
    ∧ (∀ d ∈ logs.map logDate, d ∉ (computeChart logs).1 →
        ∀ e ∈ (computeChart logs).1, d < e)
    ∧ (getRecent logs n).Pairwise logGE
    ∧ (getRecent logs n ++ (List.insertionSort logGE logs).drop n).Perm logs
    ∧ (∀ y ∈ (List.insertionSort logGE logs).drop n, ∀ x ∈ getRecent logs n,
        y.timestamp ≤ x.timestamp)
    ∧ (getRecent logs n).length = min n logs.length
    ∧ (cacheGet c "admin_chart_data" = none →
        cacheGet c "admin_recent_logs" = none →
        (dashboardIndex st c).1.chartLabels = (computeChart st.logs).1
        ∧ (dashboardIndex st c).1.chartValues = (computeChart st.logs).2
        ∧ (dashboardIndex st c).1.recentLogs = getRecent st.logs 10) := by
  have hsortNodup : (List.insertionSort (· ≥ ·) (logs.map logDate).dedup).Nodup :=
    (List.perm_insertionSort _ _).nodup_iff.mpr (List.nodup_dedup _)
  have hsorted : (List.insertionSort (· ≥ ·) (logs.map logDate).dedup).Sorted (· ≥ ·) :=
    List.sorted_insertionSort _ _
  have hgt : (List.insertionSort (· ≥ ·) (logs.map logDate).dedup).Pairwise (· > ·) :=
    (hsorted.and hsortNodup).imp (fun h => lt_of_le_of_ne h.1 (Ne.symm h.2))
  have hlab : (computeChart logs).1 =
      ((List.insertionSort (· ≥ ·) (logs.map logDate).dedup).take 30).reverse := by
    unfold computeChart getDailyCounts
    simp only [List.map_reverse, ← List.map_take, List.map_map]
    exact congrArg List.reverse (List.map_id'' (fun _ => rfl) _)
  refine ⟨?_, ?_, ?_, ?_, ?_, ?_, ?_, dashboardIndex_miss st c⟩
  · rw [hlab, List.pairwise_reverse]
    exact (hgt.sublist (List.take_sublist 30 _))
  · intro p hp
    unfold getDailyCounts at hp
    simp only at hp
    obtain ⟨d, hd, rfl⟩ := List.mem_map.mp hp
    refine ⟨rfl, ?_⟩
    have hd' : d ∈ List.insertionSort (· ≥ ·) (logs.map logDate).dedup :=
      List.mem_of_mem_take hd
    have hd2 : d ∈ (logs.map logDate).dedup :=
      (List.perm_insertionSort _ _).mem_iff.mp hd'
    have hd3 : d ∈ logs.map logDate := (List.mem_dedup).mp hd2
    obtain ⟨l, hl, hld⟩ := List.mem_map.mp hd3
    exact ⟨l, hl, hld⟩
  · intro d hd hnot e he
    rw [hlab] at hnot he
    rw [List.mem_reverse] at hnot he
    have hd2 : d ∈ List.insertionSort (· ≥ ·) (logs.map logDate).dedup :=
      (List.perm_insertionSort _ _).mem_iff.mpr ((List.mem_dedup).mpr hd)
    have hsplit := List.take_append_drop 30
      (List.insertionSort (· ≥ ·) (logs.map logDate).dedup)
    have hdrop : d ∈ (List.insertionSort (· ≥ ·) (logs.map logDate).dedup).drop 30 := by
      rcases (List.mem_append.mp (by rw [hsplit]; exact hd2)) with h | h
      · exact absurd h hnot
      · exact h
    have hcross := hgt
    rw [← hsplit, List.pairwise_append] at hcross
    exact hcross.2.2 e he d hdrop
  · exact (List.sorted_insertionSort logGE logs).sublist (List.take_sublist n _)
  · unfold getRecent
    rw [List.take_append_drop]
    exact List.perm_insertionSort _ _
  · intro y hy x hx
    have hcross : List.Pairwise logGE (List.insertionSort logGE logs) :=
      List.sorted_insertionSort logGE logs
    rw [← List.take_append_drop n (List.insertionSort logGE logs),
      List.pairwise_append] at hcross
    exact hcross.2.2 x hx y hy
  · unfold getRecent
    rw [List.length_take, List.length_insertionSort]

/-- Witness for the amended C7 at concrete inputs: three log rows over
days 0 and 2, an excerpt of size 2, and a dashboard read on an empty
cache. -/
theorem dashboard_recompute_amended_witness :
    (computeChart exLogs3).1.Pairwise (· < ·)
    ∧ ((0, 1) ∈ getDailyCounts exLogs3 30 → ∃ l ∈ exLogs3, logDate l = 0)
    ∧ (getRecent exLogs3 2).Pairwise logGE
    ∧ (getRecent exLogs3 2).length = min 2 exLogs3.length
    ∧ (dashboardIndex { exStore with logs := exLogs3 } []).1.recentLogs =
        getRecent exLogs3 2 ++ [⟨5, "GET", "/api/menus", 200, some 1⟩] := by
  have h := dashboard_recompute_amended exLogs3 2 { exStore with logs := exLogs3 } []
  have hdash := h.2.2.2.2.2.2.2 (by decide) (by decide)
  refine ⟨h.1, ?_, h.2.2.2.1, h.2.2.2.2.2.2.1, ?_⟩
  · intro hp
    exact (h.2.1 (0, 1) hp).2
  · rw [hdash.2.2]
    decide

end MenuServer
